import Mathlib

/-
Verification of the credential resolution and permission error diagnosis
logic of the cf command line tool (cmd/cf/main.go). Go functions are
embedded as pure Lean functions; the package level memoization variables
become an explicit Cache value threaded through the calls; the process
environment, the wrangler subprocess and the HTTP exchanges are supplied
as explicit oracle inputs.
-/

set_option maxRecDepth 8000

namespace Cf

/-- A JSON value, modelling the payloads exchanged with the external
auth tool and the remote API; the Go code decodes them with encoding/json. -/
inductive JValue where
  | jstr (s : String)
  | jnum (n : Int)
  | jbool (b : Bool)
  | jnull
  | jarr (xs : List JValue)
  | jobj (fields : List (String × JValue))

/-- The process environment restricted to the four variables the program
reads. A variable that is unset reads as the empty string, as with os.Getenv
in Go. -/
structure Env where
  CF_API_TOKEN : String
  CLOUDFLARE_API_TOKEN : String
  CF_ACCOUNT_ID : String
  CLOUDFLARE_ACCOUNT_ID : String
  deriving DecidableEq

/-- The package level memoization state: the variables cachedAPIToken and
cachedAccountID of main.go, lines 21 and 22. -/
structure Cache where
  cachedAPIToken : String
  cachedAccountID : String
  deriving DecidableEq

deriving instance DecidableEq for Except

/-- The cache at process start: both package level strings are empty. -/
def emptyCache : Cache := ⟨"", ""⟩

/-- The structured API error unit (main.go lines 24 to 27). -/
structure apiError where
  code : Int
  message : String
  deriving DecidableEq

/-- The white space test of strings.TrimSpace, restricted to the white space
characters that can actually occur here: the ASCII white space set together
with the next line and no break space characters of Latin-1. -/
def goIsSpace (c : Char) : Bool :=
  c = ' ' ∨ c = '\t' ∨ c = '\n' ∨ c = '\x0b' ∨ c = '\x0c' ∨ c = '\r' ∨
    c = Char.ofNat 133 ∨ c = Char.ofNat 160

/-- Drop the leading white space run of a character list. -/
def dropLeadingSpace : List Char → List Char
  | [] => []
  | c :: rest => if goIsSpace c then dropLeadingSpace rest else c :: rest

/-- strings.TrimSpace from the Go standard library: remove leading and
trailing white space. -/
def goTrimSpace (s : String) : String :=
  ⟨(dropLeadingSpace (dropLeadingSpace s.data).reverse).reverse⟩

/-- strings.Join from the Go standard library, as the source uses it. -/
def goJoin : List String → String → String
  | [], _ => ""
  | [x], _ => x
  | x :: y :: rest, sep => x ++ sep ++ goJoin (y :: rest) sep

/-- Helper for goContains: whether the first list starts with the second. -/
def hasPref : List Char → List Char → Bool
  | _, [] => true
  | [], _ :: _ => false
  | a :: as, b :: bs => if a = b then hasPref as bs else false

/-- Helper for goContains: whether the first list has the second as a
contiguous run, checked at every start position. -/
def containsSub : List Char → List Char → Bool
  | [], sub => hasPref [] sub
  | a :: as, sub => hasPref (a :: as) sub || containsSub as sub

/-- strings.Contains from the Go standard library: true when sub occurs
contiguously inside s. -/
def goContains (s sub : String) : Bool := containsSub s.data sub.data

/-- Models encoding/json unmarshalling of the wrangler output object into the
anonymous Go struct with the single string field Token, json tag token
(main.go lines 240 to 242): keys are scanned in order, a later duplicate key
overwrites, a string value is stored, a null value is skipped, and any other
value type under the token key is a decode error. -/
def decodeTokenFields : List (String × JValue) → String → Except String String
  | [], acc => .ok acc
  | (k, v) :: rest, acc =>
    if k = "token" then
      match v with
      | .jstr s => decodeTokenFields rest s
      | .jnull => decodeTokenFields rest acc
      | _ => .error "json: cannot unmarshal value into Go struct field of type string"
    else decodeTokenFields rest acc

/-- Top level of the unmarshal for the wrangler token JSON: an object or null
succeeds, null leaving the zero value; anything else is a decode error. -/
def decodeTokenStruct : JValue → Except String String
  | .jnull => .ok ""
  | .jobj fields => decodeTokenFields fields ""
  | _ => .error "json: cannot unmarshal value into Go value of type struct"

/-- Outcome of running the external command wrangler auth token, namely
cmd.Output in the source: either the subprocess fails, or it produces bytes
that are not valid JSON (none), or bytes parsing to the given JSON value. -/
abbrev WranglerRun := Except Unit (Option JValue)

/-- tokenFromWrangler (main.go lines 233 to 250): run the auth tool,
unmarshal its output, and reject a blank token field. The exec and json error
texts stand in for the stdlib messages; resolveAPIToken never surfaces them. -/
def tokenFromWrangler (wr : WranglerRun) : Except String String :=
  match wr with
  | .error _ => .error "exec: wrangler: command failed"
  | .ok none => .error "invalid character in JSON input"
  | .ok (some j) =>
    match decodeTokenStruct j with
    | .error e => .error e
    | .ok token =>
      if goTrimSpace token = "" then .error "wrangler token output did not include token field"
      else .ok token

/-- resolveAPIToken (main.go lines 180 to 202), with the package level cache
passed explicitly and the wrangler subprocess outcome supplied as an oracle. -/
def resolveAPIToken (env : Env) (wr : WranglerRun) (c : Cache) :
    Except String String × Cache :=
  if c.cachedAPIToken ≠ "" then (.ok c.cachedAPIToken, c)
  else
    let v1 := goTrimSpace env.CF_API_TOKEN
    if v1 ≠ "" then (.ok v1, ⟨v1, c.cachedAccountID⟩)
    else
      let v2 := goTrimSpace env.CLOUDFLARE_API_TOKEN
      if v2 ≠ "" then (.ok v2, ⟨v2, c.cachedAccountID⟩)
      else
        match tokenFromWrangler wr with
        | .ok token =>
          if token ≠ "" then (.ok token, ⟨token, c.cachedAccountID⟩)
          else
            (.error "missing API token. set CF_API_TOKEN (or CLOUDFLARE_API_TOKEN), or login via Wrangler", c)
        | .error _ =>
          (.error "missing API token. set CF_API_TOKEN (or CLOUDFLARE_API_TOKEN), or login via Wrangler", c)

/-- One account as listed by the memberships endpoint. -/
structure Account where
  id : String
  name : String
  deriving DecidableEq

/-- One entry of the memberships result list (main.go lines 269 to 274). -/
structure Membership where
  account : Account
  deriving DecidableEq

/-- The decoded body of the memberships response (main.go lines 266 to 275). -/
structure MembershipsPayload where
  success : Bool
  errors : List apiError
  result : List Membership
  deriving DecidableEq

/-- Outcome of the memberships HTTP exchange: a transport or body decode
failure, or an HTTP status paired with the decoded payload. -/
abbrev MembershipsRun := Except String (Nat × MembershipsPayload)

/-- formatAPIErrors (main.go lines 298 to 307), giving the message text of
the error value it builds. -/
def formatAPIErrors (errs : List apiError) (status : Nat) : String :=
  if errs.length = 0 then "Cloudflare API request failed (HTTP " ++ toString status ++ ")"
  else goJoin (errs.map (fun e => toString e.code ++ ": " ++ e.message)) "; "

/-- inferAccountIDFromMemberships (main.go lines 252 to 296); the HTTP
request and the JSON decode of its body are supplied as an oracle outcome.
The token argument only feeds the request header in the source. -/
def inferAccountIDFromMemberships (_token : String) (m : MembershipsRun) :
    Except String String :=
  match m with
  | .error e => .error e
  | .ok (status, payload) =>
    if 400 ≤ status ∨ payload.success = false then
      .error (formatAPIErrors payload.errors status)
    else
      match payload.result with
      | [] => .error "no Cloudflare account memberships found for token"
      | [item] => .ok item.account.id
      | items =>
        .error ("multiple accounts found; set CF_ACCOUNT_ID. available: " ++
          goJoin (items.map (fun item => item.account.name ++ " (" ++ item.account.id ++ ")")) ", ")

/-- resolveAccountID (main.go lines 204 to 231), with the cache explicit and
the wrangler and memberships exchanges supplied as oracles. -/
def resolveAccountID (env : Env) (wr : WranglerRun) (m : MembershipsRun) (c : Cache) :
    Except String String × Cache :=
  if c.cachedAccountID ≠ "" then (.ok c.cachedAccountID, c)
  else
    let v1 := goTrimSpace env.CF_ACCOUNT_ID
    if v1 ≠ "" then (.ok v1, ⟨c.cachedAPIToken, v1⟩)
    else
      let v2 := goTrimSpace env.CLOUDFLARE_ACCOUNT_ID
      if v2 ≠ "" then (.ok v2, ⟨c.cachedAPIToken, v2⟩)
      else
        match resolveAPIToken env wr c with
        | (.error e, c1) => (.error e, c1)
        | (.ok token, c1) =>
          match inferAccountIDFromMemberships token m with
          | .error e => (.error e, c1)
          | .ok accountID => (.ok accountID, ⟨c1.cachedAPIToken, accountID⟩)

/-- The decoded generic API envelope (main.go lines 29 to 33); result holds
the raw JSON of the result field, none when the body had no such field. -/
structure apiResponse where
  success : Bool
  errors : List apiError
  result : Option JValue

/-- Outcome of one HTTP exchange inside requestCF: a transport or body decode
failure, or the HTTP status paired with the decoded envelope. -/
abbrev TransportRun := Except String (Nat × apiResponse)

/-- requestCF (main.go lines 139 to 178): resolve the token, then perform the
exchange; an HTTP status of at least 400 or an unsuccessful envelope is
mapped through formatAPIErrors. -/
def requestCF (env : Env) (wr : WranglerRun) (c : Cache) (t : TransportRun) :
    Except String apiResponse × Cache :=
  match resolveAPIToken env wr c with
  | (.error e, c1) => (.error e, c1)
  | (.ok _, c1) =>
    match t with
    | .error e => (.error e, c1)
    | .ok (status, out) =>
      if 400 ≤ status ∨ out.success = false then
        (.error (formatAPIErrors out.errors status), c1)
      else (.ok out, c1)

/-- The zone record (main.go lines 42 to 46). -/
structure zone where
  id : String
  name : String
  status : String
  deriving DecidableEq

/-- Models encoding/json unmarshalling of object fields into the zone struct:
string fields id, name and status, keys scanned in order, later keys
overwrite, null values are skipped, other value types under a known key fail. -/
def decodeZoneFields : List (String × JValue) → zone → Except String zone
  | [], acc => .ok acc
  | (k, v) :: rest, acc =>
    if k = "id" ∨ k = "name" ∨ k = "status" then
      match v with
      | .jstr s =>
        if k = "id" then decodeZoneFields rest ⟨s, acc.name, acc.status⟩
        else if k = "name" then decodeZoneFields rest ⟨acc.id, s, acc.status⟩
        else decodeZoneFields rest ⟨acc.id, acc.name, s⟩
      | .jnull => decodeZoneFields rest acc
      | _ => .error "json: cannot unmarshal value into Go struct field of type string"
    else decodeZoneFields rest acc

/-- Unmarshal one JSON value as a zone: an object or null only. -/
def decodeZone : JValue → Except String zone
  | .jnull => .ok ⟨"", "", ""⟩
  | .jobj fields => decodeZoneFields fields ⟨"", "", ""⟩
  | _ => .error "json: cannot unmarshal value into Go value of type zone"

/-- json.Unmarshal of resp.Result into one zone; a missing result field is a
nil RawMessage, which fails to unmarshal. -/
def unmarshalZone : Option JValue → Except String zone
  | none => .error "unexpected end of JSON input"
  | some j => decodeZone j

/-- json.Unmarshal of resp.Result into a zone slice. -/
def unmarshalZones : Option JValue → Except String (List zone)
  | none => .error "unexpected end of JSON input"
  | some .jnull => .ok []
  | some (.jarr xs) => xs.mapM decodeZone
  | some _ => .error "json: cannot unmarshal value into Go value of type zone slice"

/-- getZoneByName (main.go lines 365 to 387); the name argument only feeds
the query string in the source, and the lookup exchange is an oracle. -/
def getZoneByName (env : Env) (wr : WranglerRun) (m : MembershipsRun) (c : Cache)
    (t : TransportRun) (_name : String) : Except String (Option zone) × Cache :=
  match resolveAccountID env wr m c with
  | (.error e, c1) => (.error e, c1)
  | (.ok _, c1) =>
    match requestCF env wr c1 t with
    | (.error e, c2) => (.error e, c2)
    | (.ok resp, c2) =>
      match unmarshalZones resp.result with
      | .error e => (.error e, c2)
      | .ok zs =>
        match zs with
        | [] => (.ok none, c2)
        | z :: _ => (.ok (some z), c2)

/-- addZone (main.go lines 389 to 422): create the zone; when creation fails
with an error whose text contains 1061, look the zone up by name and return
the existing zone when one is found; otherwise return the original error. -/
def addZone (env : Env) (wr : WranglerRun) (m : MembershipsRun) (c : Cache)
    (create : TransportRun) (lookup : TransportRun) (domain : String) :
    Except String zone × Cache :=
  match resolveAccountID env wr m c with
  | (.error e, c1) => (.error e, c1)
  | (.ok _, c1) =>
    match requestCF env wr c1 create with
    | (.ok resp, c2) =>
      (match unmarshalZone resp.result with
       | .error e => (.error e, c2)
       | .ok z => (.ok z, c2))
    | (.error e, c2) =>
      if goContains e "1061" then
        match getZoneByName env wr m c2 lookup domain with
        | (.error le, c3) => (.error le, c3)
        | (.ok (some existing), c3) => (.ok existing, c3)
        | (.ok none, c3) => (.error e, c3)
      else (.error e, c2)

/-- An error value as the classifier sees it: msg is what the Error method
renders, and eid is an identity tag distinguishing one allocated error value
from another that happens to render the same text. -/
structure GoError where
  eid : Nat
  msg : String
  deriving DecidableEq

/-- The capability string carried by the permission denial from the zone
creation endpoint; the tests match it inside the flattened error text. -/
def zoneCreatePermissionSignature : String := "com.cloudflare.api.account.zone.create"

/-- Outcome of running the auth tool whoami subcommand through cmdRunner. -/
abbrev WhoamiRun := Except Unit String

/-- One recorded external command invocation: executable name and arguments. -/
abbrev CmdCall := String × List String

/-- Modelled from the spec: the function explainZoneCreatePermissionError and
the cmdRunner seam are referenced by the tests inside cmd/cf/main.go but
their definitions are not present under src. Following section 4.2 of the
spec and the expectations of those tests: the input error passes through
unchanged unless its rendered text contains the permission signature; on a
match the auth mode is re-derived from a fresh read of the two token
environment variables, never from the cached resolver state; in environment
token mode the guidance names that mode and tells the user to use a token
with the zone creation capability, and no subprocess is invoked; otherwise
the whoami subcommand is invoked best effort and its raw output, when the
subprocess succeeds, is appended verbatim, while a subprocess failure only
shortens the message. The returned triple is the resulting error value (none
models a nil Go error), the list of external commands invoked during the
call, and the cache, which is never written. A freshly composed error value
carries a new identity tag. -/
def explainZoneCreatePermissionError (env : Env) (who : WhoamiRun) (c : Cache) (e : GoError) :
    Option GoError × List CmdCall × Cache :=
  if goContains e.msg zoneCreatePermissionSignature then
    if goTrimSpace env.CF_API_TOKEN ≠ "" ∨ goTrimSpace env.CLOUDFLARE_API_TOKEN ≠ "" then
      (some ⟨e.eid + 1,
        "zone creation was denied: " ++ e.msg ++
          ". Auth mode detected: API token from environment. " ++
          "Use a token with zone-creation capability for this account."⟩,
       [], c)
    else
      (some ⟨e.eid + 1,
        "zone creation was denied: " ++ e.msg ++
          ". Auth mode detected: Wrangler token fallback. " ++
          "Re-login through Wrangler with an identity that can create zones, " ++
          "or set CF_API_TOKEN to a token with zone-creation capability." ++
          (match who with
           | .ok out => " " ++ out
           | .error _ => "")⟩,
       [("wrangler", ["whoami"])], c)
  else (some e, [], c)

/-- hasPref holds exactly when the second list is an initial run of the first. -/
theorem hasPref_iff (s sub : List Char) : hasPref s sub = true ↔ ∃ v, s = sub ++ v := by
  induction sub generalizing s with
  | nil => simp [hasPref]
  | cons b bs ih =>
    cases s with
    | nil =>
      simp [hasPref]
    | cons a as =>
      simp only [hasPref]
      by_cases hab : a = b
      · subst hab
        rw [if_pos rfl, ih]
        simp [List.cons_append]
      · rw [if_neg hab]
        simp only [List.cons_append, List.cons.injEq]
        constructor
        · intro h
          exact absurd h (by simp)
        · rintro ⟨v, hv1, hv2⟩
          exact absurd hv1 hab

/-- containsSub holds exactly when the second list occurs contiguously inside
the first. -/
theorem containsSub_iff (s sub : List Char) :
    containsSub s sub = true ↔ ∃ u v, s = u ++ sub ++ v := by
  induction s with
  | nil =>
    simp only [containsSub, hasPref_iff]
    constructor
    · rintro ⟨v, hv⟩
      exact ⟨[], v, by simpa using hv⟩
    · rintro ⟨u, v, hv⟩
      rcases List.append_eq_nil.mp hv.symm with ⟨h1, h2⟩
      rcases List.append_eq_nil.mp h1 with ⟨h3, h4⟩
      exact ⟨[], by simp [h4]⟩
  | cons a as ih =>
    simp only [containsSub, Bool.or_eq_true, hasPref_iff, ih]
    constructor
    · rintro (⟨v, hv⟩ | ⟨u, v, hv⟩)
      · exact ⟨[], v, by simpa using hv⟩
      · exact ⟨a :: u, v, by simp [hv]⟩
    · rintro ⟨u, v, hv⟩
      cases u with
      | nil => exact Or.inl ⟨v, by simpa using hv⟩
      | cons x xs =>
        right
        rw [List.cons_append, List.cons_append, List.cons.injEq] at hv
        exact ⟨xs, v, by simpa using hv.2⟩

/-- The character data of an appended string is the appended data. -/
theorem strData_append (s t : String) : (s ++ t).data = s.data ++ t.data := rfl

/-- goContains holds exactly when the data of sub occurs contiguously inside
the data of s. -/
theorem goContains_iff (s sub : String) :
    goContains s sub = true ↔ ∃ u v, s.data = u ++ sub.data ++ v :=
  containsSub_iff s.data sub.data

/-- Every string contains itself. -/
theorem goContains_self (s : String) : goContains s s = true :=
  (goContains_iff s s).mpr ⟨[], [], by simp⟩

/-- Appending on the right preserves containment. -/
theorem goContains_append_left {s sub : String} (t : String)
    (h : goContains s sub = true) : goContains (s ++ t) sub = true := by
  rcases (goContains_iff s sub).mp h with ⟨u, v, hv⟩
  exact (goContains_iff (s ++ t) sub).mpr
    ⟨u, v ++ t.data, by simp [strData_append, hv]⟩

/-- Appending on the left preserves containment. -/
theorem goContains_append_right {t sub : String} (s : String)
    (h : goContains t sub = true) : goContains (s ++ t) sub = true := by
  rcases (goContains_iff t sub).mp h with ⟨u, v, hv⟩
  exact (goContains_iff (s ++ t) sub).mpr
    ⟨s.data ++ u, v, by simp [strData_append, hv]⟩

/-- Containment is transitive. -/
theorem goContains_trans {a b c : String} (h1 : goContains a b = true)
    (h2 : goContains b c = true) : goContains a c = true := by
  rcases (goContains_iff a b).mp h1 with ⟨u, v, hv⟩
  rcases (goContains_iff b c).mp h2 with ⟨u2, v2, hv2⟩
  exact (goContains_iff a c).mpr ⟨u ++ u2, v2 ++ v, by simp [hv, hv2]⟩

/-- A member of the joined list occurs inside the join. -/
theorem goContains_of_mem_goJoin {x : String} (sep : String) :
    ∀ {l : List String}, x ∈ l → goContains (goJoin l sep) x = true := by
  intro l
  induction l with
  | nil => intro h; cases h
  | cons y ys ih =>
    intro h
    cases ys with
    | nil =>
      have hx : x = y := by simpa using h
      subst hx
      simpa [goJoin] using goContains_self x
    | cons z zs =>
      rcases List.mem_cons.mp h with h1 | h2
      · subst h1
        simpa [goJoin] using
          goContains_append_left _ (goContains_append_left _ (goContains_self x))
      · simpa [goJoin] using goContains_append_right _ (ih h2)

/-- Helper for C3: with both account variables blank and an empty account
cache, once token resolution succeeds the account resolution outcome is
exactly the membership inference outcome. -/
theorem resolveAccountID_reaches_inference (env : Env) (wr : WranglerRun) (m : MembershipsRun)
    (c : Cache) (tk : String)
    (h1 : goTrimSpace env.CF_ACCOUNT_ID = "") (h2 : goTrimSpace env.CLOUDFLARE_ACCOUNT_ID = "")
    (hc : c.cachedAccountID = "") (htok : (resolveAPIToken env wr c).1 = .ok tk) :
    (resolveAccountID env wr m c).1 = inferAccountIDFromMemberships tk m := by
  rcases hr : resolveAPIToken env wr c with ⟨r, c1⟩
  rw [hr] at htok
  simp only at htok
  subst htok
  rcases hi : inferAccountIDFromMemberships tk m with e | a <;>
    simp [resolveAccountID, hc, h1, h2, hr, hi]

/-- C2: resolveAPIToken tries its sources in the fixed order CF_API_TOKEN,
then CLOUDFLARE_API_TOKEN, then the wrangler subprocess whose JSON output is
parsed for a token field; the first source yielding a non empty value wins
and is returned; when both variables are blank and the wrangler path fails
for any reason, including subprocess failure and malformed output, the one
missing credential error is returned and no per source error is surfaced. -/
theorem resolveAPIToken_source_order (env : Env) (wr : WranglerRun) :
    (goTrimSpace env.CF_API_TOKEN ≠ "" →
      resolveAPIToken env wr emptyCache
        = (.ok (goTrimSpace env.CF_API_TOKEN), ⟨goTrimSpace env.CF_API_TOKEN, ""⟩))
  ∧ (goTrimSpace env.CF_API_TOKEN = "" → goTrimSpace env.CLOUDFLARE_API_TOKEN ≠ "" →
      resolveAPIToken env wr emptyCache
        = (.ok (goTrimSpace env.CLOUDFLARE_API_TOKEN), ⟨goTrimSpace env.CLOUDFLARE_API_TOKEN, ""⟩))
  ∧ (goTrimSpace env.CF_API_TOKEN = "" → goTrimSpace env.CLOUDFLARE_API_TOKEN = "" →
      ∀ t, tokenFromWrangler wr = .ok t → t ≠ "" →
      resolveAPIToken env wr emptyCache = (.ok t, ⟨t, ""⟩))
  ∧ (goTrimSpace env.CF_API_TOKEN = "" → goTrimSpace env.CLOUDFLARE_API_TOKEN = "" →
      ∀ msg, tokenFromWrangler wr = .error msg →
      resolveAPIToken env wr emptyCache
        = (.error "missing API token. set CF_API_TOKEN (or CLOUDFLARE_API_TOKEN), or login via Wrangler",
           emptyCache)) := by
  refine ⟨?_, ?_, ?_, ?_⟩
  · intro h1
    simp [resolveAPIToken, emptyCache, h1]
  · intro h1 h2
    simp [resolveAPIToken, emptyCache, h1, h2]
  · intro h1 h2 t ht hne
    simp [resolveAPIToken, emptyCache, h1, h2, ht, hne]
  · intro h1 h2 msg hmsg
    simp [resolveAPIToken, emptyCache, h1, h2, hmsg]

/-- Witness for C2 at a concrete environment: the primary variable, even
white space padded, wins over the alias and the trimmed value is returned. -/
theorem resolveAPIToken_source_order_witness :
    resolveAPIToken ⟨" tok ", "ignored", "", ""⟩ (.error ()) emptyCache
      = (.ok "tok", ⟨"tok", ""⟩) :=
  (resolveAPIToken_source_order ⟨" tok ", "ignored", "", ""⟩ (.error ())).1 (by decide)

/-- C4: after a first successful resolution within one run, a second call
returns the identical token without re reading any source: the environment
and the wrangler outcome seen by the second call are arbitrary, in
particular the token variable may have changed, and the cache stays as the
first call left it. -/
theorem resolveAPIToken_memoized (env env2 : Env) (wr wr2 : WranglerRun) (t : String)
    (h : (resolveAPIToken env wr emptyCache).1 = .ok t) :
    resolveAPIToken env2 wr2 (resolveAPIToken env wr emptyCache).2
      = (.ok t, (resolveAPIToken env wr emptyCache).2) := by
  have key : (resolveAPIToken env wr emptyCache).2.cachedAPIToken = t ∧ t ≠ "" := by
    by_cases h1 : goTrimSpace env.CF_API_TOKEN ≠ ""
    · simp [resolveAPIToken, emptyCache, h1] at h ⊢
      exact ⟨h, h ▸ h1⟩
    · by_cases h2 : goTrimSpace env.CLOUDFLARE_API_TOKEN ≠ ""
      · simp only [ne_eq, not_not] at h1
        simp [resolveAPIToken, emptyCache, h1, h2] at h ⊢
        exact ⟨h, h ▸ h2⟩
      · simp only [ne_eq, not_not] at h1 h2
        rcases htw : tokenFromWrangler wr with msg | tok
        · simp [resolveAPIToken, emptyCache, h1, h2, htw] at h
        · by_cases h3 : tok ≠ ""
          · simp [resolveAPIToken, emptyCache, h1, h2, htw, h3] at h ⊢
            exact ⟨h, h ▸ h3⟩
          · simp only [ne_eq, not_not] at h3
            simp [resolveAPIToken, emptyCache, h1, h2, htw, h3] at h
  rcases key with ⟨hcache, hne⟩
  set c1 := (resolveAPIToken env wr emptyCache).2 with hc1
  simp [resolveAPIToken, hcache, hne]

/-- Witness for C4: the token variable changes from tok1 to tok2 between the
two calls, and the second call still returns tok1. -/
theorem resolveAPIToken_memoized_witness :
    resolveAPIToken ⟨"tok2", "", "", ""⟩ (.error ())
      (resolveAPIToken ⟨"tok1", "", "", ""⟩ (.error ()) emptyCache).2
    = (.ok "tok1", (resolveAPIToken ⟨"tok1", "", "", ""⟩ (.error ()) emptyCache).2) :=
  resolveAPIToken_memoized ⟨"tok1", "", "", ""⟩ ⟨"tok2", "", "", ""⟩
    (.error ()) (.error ()) "tok1" (by decide)

/-- C7: with no token variable set and an empty cache, when the wrangler
subprocess outputs the JSON object with token field tok-123, resolveAPIToken
returns tok-123 with no error. -/
theorem resolveAPIToken_wrangler_token_json (env : Env) (c : Cache)
    (h1 : goTrimSpace env.CF_API_TOKEN = "") (h2 : goTrimSpace env.CLOUDFLARE_API_TOKEN = "")
    (hc : c.cachedAPIToken = "") :
    (resolveAPIToken env (.ok (some (.jobj [("token", .jstr "tok-123")]))) c).1
      = .ok "tok-123" := by
  simp +decide [resolveAPIToken, hc, h1, h2, tokenFromWrangler, decodeTokenStruct,
    decodeTokenFields]

/-- Witness for C7 at the fully blank concrete environment. -/
theorem resolveAPIToken_wrangler_token_json_witness :
    (resolveAPIToken ⟨"", "", "", ""⟩ (.ok (some (.jobj [("token", .jstr "tok-123")])))
        emptyCache).1
      = .ok "tok-123" :=
  resolveAPIToken_wrangler_token_json ⟨"", "", "", ""⟩ emptyCache (by decide) (by decide) rfl

/-- C10: an environment variable that is blank or consists only of white
space is treated exactly as an unset one by both resolvers: replacing such a
value by the empty string changes nothing, so the value never becomes the
resolved credential and resolution falls through to the next source. -/
theorem blank_env_vars_treated_as_unset (env : Env) (wr : WranglerRun) (m : MembershipsRun)
    (c : Cache) :
    (goTrimSpace env.CF_API_TOKEN = "" →
      resolveAPIToken env wr c
        = resolveAPIToken ⟨"", env.CLOUDFLARE_API_TOKEN, env.CF_ACCOUNT_ID,
            env.CLOUDFLARE_ACCOUNT_ID⟩ wr c)
  ∧ (goTrimSpace env.CLOUDFLARE_API_TOKEN = "" →
      resolveAPIToken env wr c
        = resolveAPIToken ⟨env.CF_API_TOKEN, "", env.CF_ACCOUNT_ID,
            env.CLOUDFLARE_ACCOUNT_ID⟩ wr c)
  ∧ (goTrimSpace env.CF_ACCOUNT_ID = "" →
      resolveAccountID env wr m c
        = resolveAccountID ⟨env.CF_API_TOKEN, env.CLOUDFLARE_API_TOKEN, "",
            env.CLOUDFLARE_ACCOUNT_ID⟩ wr m c)
  ∧ (goTrimSpace env.CLOUDFLARE_ACCOUNT_ID = "" →
      resolveAccountID env wr m c
        = resolveAccountID ⟨env.CF_API_TOKEN, env.CLOUDFLARE_API_TOKEN,
            env.CF_ACCOUNT_ID, ""⟩ wr m c) := by
  refine ⟨?_, ?_, ?_, ?_⟩
  · intro h
    simp +decide [resolveAPIToken, h]
  · intro h
    simp +decide [resolveAPIToken, h]
  · intro h
    simp +decide [resolveAccountID, resolveAPIToken, h]
  · intro h
    simp +decide [resolveAccountID, resolveAPIToken, h]

/-- Witness for C10: a white space only primary token variable behaves as the
unset one. -/
theorem blank_env_vars_treated_as_unset_witness :
    resolveAPIToken ⟨"  ", "fallback", "", ""⟩ (.error ()) emptyCache
      = resolveAPIToken ⟨"", "fallback", "", ""⟩ (.error ()) emptyCache :=
  (blank_env_vars_treated_as_unset ⟨"  ", "fallback", "", ""⟩ (.error ())
    (.error "unused") emptyCache).1 (by decide)

/-- C3: with neither account variable set and an empty account cache, once a
token is resolved, resolveAccountID derives the account from the memberships
response: exactly one listed account yields that account id; zero accounts
yield the no memberships error; two or more accounts yield an error whose
text contains every candidate account name and id. -/
theorem resolveAccountID_membership_inference (env : Env) (wr : WranglerRun) (c : Cache)
    (status : Nat) (payload : MembershipsPayload) (tk : String)
    (h1 : goTrimSpace env.CF_ACCOUNT_ID = "") (h2 : goTrimSpace env.CLOUDFLARE_ACCOUNT_ID = "")
    (hc : c.cachedAccountID = "")
    (htok : (resolveAPIToken env wr c).1 = .ok tk)
    (hst : status < 400) (hsu : payload.success = true) :
    (payload.result = [] →
      (resolveAccountID env wr (.ok (status, payload)) c).1
        = .error "no Cloudflare account memberships found for token")
  ∧ (∀ item, payload.result = [item] →
      (resolveAccountID env wr (.ok (status, payload)) c).1 = .ok item.account.id)
  ∧ (2 ≤ payload.result.length →
      ∃ msg, (resolveAccountID env wr (.ok (status, payload)) c).1 = .error msg
        ∧ ∀ item ∈ payload.result,
            goContains msg item.account.name = true ∧ goContains msg item.account.id = true) := by
  have hred := resolveAccountID_reaches_inference env wr (.ok (status, payload)) c tk h1 h2 hc htok
  have hnotfail : ¬ (400 ≤ status ∨ payload.success = false) := by
    push_neg
    exact ⟨by omega, by simp [hsu]⟩
  refine ⟨?_, ?_, ?_⟩
  · intro hres
    rw [hred]
    simp [inferAccountIDFromMemberships, hnotfail, hres]
  · intro item hres
    rw [hred]
    simp [inferAccountIDFromMemberships, hnotfail, hres]
  · intro hlen
    rcases hres : payload.result with _ | ⟨a, tail⟩
    · rw [hres] at hlen
      simp at hlen
    · rcases htail : tail with _ | ⟨b, rest⟩
      · rw [hres, htail] at hlen
        simp at hlen
      · subst htail
        refine ⟨"multiple accounts found; set CF_ACCOUNT_ID. available: " ++
            goJoin ((a :: b :: rest).map
              (fun item => item.account.name ++ " (" ++ item.account.id ++ ")")) ", ", ?_, ?_⟩
        · rw [hred]
          simp only [inferAccountIDFromMemberships]
          rw [if_neg hnotfail, hres]
        · intro item hmem
          have hpiece :
              (item.account.name ++ " (" ++ item.account.id ++ ")")
                ∈ (a :: b :: rest).map
                    (fun it => it.account.name ++ " (" ++ it.account.id ++ ")") :=
            List.mem_map_of_mem _ hmem
          have hjoin := goContains_of_mem_goJoin ", " hpiece
          have hmsg := goContains_append_right
            "multiple accounts found; set CF_ACCOUNT_ID. available: " hjoin
          constructor
          · exact goContains_trans hmsg
              (goContains_append_left _ (goContains_append_left _
                (goContains_append_left _ (goContains_self _))))
          · exact goContains_trans hmsg
              (goContains_append_left _ (goContains_append_right _ (goContains_self _)))

/-- Witness for C3: two memberships produce an error naming both accounts. -/
theorem resolveAccountID_membership_inference_witness :
    ∃ msg,
      (resolveAccountID ⟨"tok", "", "", ""⟩ (.error ())
          (.ok (200, ⟨true, [], [⟨⟨"id-a", "Acme"⟩⟩, ⟨⟨"id-b", "Beta"⟩⟩]⟩)) emptyCache).1
        = .error msg
      ∧ ∀ item ∈ ([⟨⟨"id-a", "Acme"⟩⟩, ⟨⟨"id-b", "Beta"⟩⟩] : List Membership),
          goContains msg item.account.name = true ∧ goContains msg item.account.id = true :=
  (resolveAccountID_membership_inference ⟨"tok", "", "", ""⟩ (.error ()) emptyCache
      200 ⟨true, [], [⟨⟨"id-a", "Acme"⟩⟩, ⟨⟨"id-b", "Beta"⟩⟩]⟩ "tok"
      rfl rfl rfl (by decide) (by decide) rfl).2.2 (by decide)

/-- C9: when zone creation fails with an error whose text contains 1061 and
the lookup by name finds an existing zone, addZone returns that zone with no
error; when the creation error does not mention 1061 the original error is
returned; and when the 1061 lookup finds nothing the original error is also
returned. -/
theorem addZone_recovery_1061 (env : Env) (wr : WranglerRun) (m : MembershipsRun) (c : Cache)
    (create lookup : TransportRun) (domain aid : String) (c1 c2 : Cache) (e : String)
    (hacct : resolveAccountID env wr m c = (.ok aid, c1))
    (hreq : requestCF env wr c1 create = (.error e, c2)) :
    (goContains e "1061" = true →
      (∀ z c3, getZoneByName env wr m c2 lookup domain = (.ok (some z), c3) →
        addZone env wr m c create lookup domain = (.ok z, c3))
      ∧ (∀ c3, getZoneByName env wr m c2 lookup domain = (.ok none, c3) →
        addZone env wr m c create lookup domain = (.error e, c3)))
  ∧ (goContains e "1061" = false →
      addZone env wr m c create lookup domain = (.error e, c2)) := by
  constructor
  · intro hyes
    constructor
    · intro z c3 hlook
      simp [addZone, hacct, hreq, hyes, hlook]
    · intro c3 hlook
      simp [addZone, hacct, hreq, hyes, hlook]
  · intro hno
    simp [addZone, hacct, hreq, hno]

/-- Witness for C9: creation fails with the 1061 code, the lookup finds the
existing zone, and addZone returns that zone with no error. -/
theorem addZone_recovery_1061_witness :
    addZone ⟨"tok", "", "acc", ""⟩ (.error ()) (.error "unused") emptyCache
      (.ok (400, ⟨false, [⟨1061, "Zone already exists"⟩], none⟩))
      (.ok (200, ⟨true, [],
        some (.jarr [.jobj [("id", .jstr "z1"), ("name", .jstr "example.com"),
          ("status", .jstr "active")]])⟩))
      "example.com"
    = (.ok ⟨"z1", "example.com", "active"⟩, ⟨"tok", "acc"⟩) :=
  ((addZone_recovery_1061 ⟨"tok", "", "acc", ""⟩ (.error ()) (.error "unused") emptyCache
      (.ok (400, ⟨false, [⟨1061, "Zone already exists"⟩], none⟩))
      (.ok (200, ⟨true, [],
        some (.jarr [.jobj [("id", .jstr "z1"), ("name", .jstr "example.com"),
          ("status", .jstr "active")]])⟩))
      "example.com" "acc" ⟨"", "acc"⟩ ⟨"tok", "acc"⟩ "1061: Zone already exists"
      rfl rfl).1 rfl).1 ⟨"z1", "example.com", "active"⟩ ⟨"tok", "acc"⟩ rfl

/-- C1: for every error whose rendered message does not contain the
permission denial signature, explainZoneCreatePermissionError returns the
very same error value, with no command invoked and the cache untouched, and
for any input the returned error is never the nil error. -/
theorem explainZoneCreatePermissionError_passthrough (env : Env) (who : WhoamiRun)
    (c : Cache) (e : GoError) :
    (goContains e.msg zoneCreatePermissionSignature = false →
      explainZoneCreatePermissionError env who c e = (some e, [], c))
  ∧ (explainZoneCreatePermissionError env who c e).1 ≠ none := by
  constructor
  · intro h
    simp [explainZoneCreatePermissionError, h]
  · unfold explainZoneCreatePermissionError
    split_ifs <;> simp

/-- Witness for C1: an unrelated error comes back as the identical value. -/
theorem explainZoneCreatePermissionError_passthrough_witness :
    explainZoneCreatePermissionError ⟨"t", "", "", ""⟩ (.error ()) emptyCache
        ⟨7, "some other error"⟩
      = (some ⟨7, "some other error"⟩, [], emptyCache) :=
  (explainZoneCreatePermissionError_passthrough ⟨"t", "", "", ""⟩ (.error ()) emptyCache
    ⟨7, "some other error"⟩).1 (by decide)

/-- C5: for a matching error, when the primary or alias token variable is
set the enriched error mentions the environment token mode marker and the
broader capability remediation phrase, and no subprocess is invoked. -/
theorem explainZoneCreatePermissionError_env_mode (env : Env) (who : WhoamiRun)
    (c : Cache) (e : GoError)
    (hsig : goContains e.msg zoneCreatePermissionSignature = true)
    (henv : goTrimSpace env.CF_API_TOKEN ≠ "" ∨ goTrimSpace env.CLOUDFLARE_API_TOKEN ≠ "") :
    ∃ e2, (explainZoneCreatePermissionError env who c e).1 = some e2
      ∧ goContains e2.msg "Auth mode detected: API token from environment" = true
      ∧ goContains e2.msg "Use a token with zone-creation capability" = true
      ∧ (explainZoneCreatePermissionError env who c e).2.1 = [] := by
  refine ⟨⟨e.eid + 1, "zone creation was denied: " ++ e.msg ++
      ". Auth mode detected: API token from environment. " ++
      "Use a token with zone-creation capability for this account."⟩, ?_, ?_, ?_, ?_⟩
  · simp [explainZoneCreatePermissionError, hsig, henv]
  · exact goContains_append_left _ (goContains_append_right _ (by decide))
  · exact goContains_append_right _ (by decide)
  · simp [explainZoneCreatePermissionError, hsig, henv]

/-- Witness for C5 at the test scenario: primary variable set to test-token,
alias blank, signature error from the tests. -/
theorem explainZoneCreatePermissionError_env_mode_witness :
    ∃ e2,
      (explainZoneCreatePermissionError ⟨"test-token", "", "", ""⟩ (.error ()) emptyCache
          ⟨0, "0: Requires permission \"com.cloudflare.api.account.zone.create\" to create zones for the selected account"⟩).1
        = some e2
      ∧ goContains e2.msg "Auth mode detected: API token from environment" = true
      ∧ goContains e2.msg "Use a token with zone-creation capability" = true
      ∧ (explainZoneCreatePermissionError ⟨"test-token", "", "", ""⟩ (.error ()) emptyCache
          ⟨0, "0: Requires permission \"com.cloudflare.api.account.zone.create\" to create zones for the selected account"⟩).2.1
        = [] :=
  explainZoneCreatePermissionError_env_mode ⟨"test-token", "", "", ""⟩ (.error ()) emptyCache
    ⟨0, "0: Requires permission \"com.cloudflare.api.account.zone.create\" to create zones for the selected account"⟩
    (by decide) (Or.inl (by decide))

/-- C6: for a matching error with neither token variable set, the enriched
error mentions the fallback tool mode marker; when the whoami subprocess
succeeds its raw output appears verbatim in the message, and when it fails
an enriched error is still returned. -/
theorem explainZoneCreatePermissionError_wrangler_mode (env : Env) (who : WhoamiRun)
    (c : Cache) (e : GoError)
    (hsig : goContains e.msg zoneCreatePermissionSignature = true)
    (h1 : goTrimSpace env.CF_API_TOKEN = "") (h2 : goTrimSpace env.CLOUDFLARE_API_TOKEN = "") :
    ∃ e2, (explainZoneCreatePermissionError env who c e).1 = some e2
      ∧ goContains e2.msg "Auth mode detected: Wrangler token fallback" = true
      ∧ (∀ out, who = .ok out → goContains e2.msg out = true) := by
  refine ⟨⟨e.eid + 1, "zone creation was denied: " ++ e.msg ++
      ". Auth mode detected: Wrangler token fallback. " ++
      "Re-login through Wrangler with an identity that can create zones, " ++
      "or set CF_API_TOKEN to a token with zone-creation capability." ++
      (match who with
       | .ok out => " " ++ out
       | .error _ => "")⟩, ?_, ?_, ?_⟩
  · simp [explainZoneCreatePermissionError, hsig, h1, h2]
  · exact goContains_append_left _ (goContains_append_left _ (goContains_append_left _
      (goContains_append_right _ (by decide))))
  · intro out hwho
    subst hwho
    exact goContains_append_right _ (goContains_append_right " " (goContains_self out))

/-- Witness for C6 at the test scenario: no token variables, whoami output
from the tests appearing verbatim in the enriched message. -/
theorem explainZoneCreatePermissionError_wrangler_mode_witness :
    ∃ e2,
      (explainZoneCreatePermissionError ⟨"", "", "", ""⟩
          (.ok "You are logged in with account example-account") emptyCache
          ⟨0, "0: Requires permission \"com.cloudflare.api.account.zone.create\" to create zones for the selected account"⟩).1
        = some e2
      ∧ goContains e2.msg "Auth mode detected: Wrangler token fallback" = true
      ∧ (∀ out, (Except.ok "You are logged in with account example-account" : WhoamiRun)
            = .ok out → goContains e2.msg out = true) :=
  explainZoneCreatePermissionError_wrangler_mode ⟨"", "", "", ""⟩
    (.ok "You are logged in with account example-account") emptyCache
    ⟨0, "0: Requires permission \"com.cloudflare.api.account.zone.create\" to create zones for the selected account"⟩
    (by decide) rfl rfl

/-- C8: explainZoneCreatePermissionError never mutates the memoized
credential cache, and its answer and command trace are independent of the
cache contents: the mode comes from a fresh read of the environment alone. -/
theorem explainZoneCreatePermissionError_cache_frame (env : Env) (who : WhoamiRun)
    (c c2 : Cache) (e : GoError) :
    (explainZoneCreatePermissionError env who c e).2.2 = c
  ∧ (explainZoneCreatePermissionError env who c e).1
      = (explainZoneCreatePermissionError env who c2 e).1
  ∧ (explainZoneCreatePermissionError env who c e).2.1
      = (explainZoneCreatePermissionError env who c2 e).2.1 := by
  unfold explainZoneCreatePermissionError
  split_ifs <;> simp

end Cf
